import Mathlib

/-!
Shallow embedding of `corenlp/client.py`: the `RobustService` supervisor
(liveness probing, readiness gate, stop semantics) and the `CoreNLPClient`
request layer (content-type negotiation, HTTP error classification,
default-property handling, pattern-query endpoints).

External effects are modelled as explicit inputs:
probe sequences (`Nat → ProbeOutcome`) stand for the successive outcomes of
`is_alive()` calls, network functions stand for `requests.get`/`requests.post`,
and exit codes stand for the stop command's return code.  Wall-clock time is
discretised: each probe is instantaneous and each `time.sleep(1)` advances the
clock by one second, so in `ensure_alive` the probe of loop iteration `e`
happens at elapsed time `e` seconds.
-/

/-- Result of one `is_alive()` call: returned True, returned False, or raised
`ShouldRetryException`. -/
inductive ProbeOutcome where
  | alive
  | dead
  | shouldRetry
deriving DecidableEq

/-- Exceptions that `ensure_alive` could conceivably raise: the transient
`ShouldRetryException` and the terminal `PermanentlyFailedException`. -/
inductive EnsureError where
  | shouldRetry
  | permanentlyFailed
deriving DecidableEq

/-- `subprocess.CalledProcessError` raised by `subprocess.run(..., check=True)`
when the stop command exits with a non-zero code. -/
inductive StopError where
  | calledProcessError (code : Int)
deriving DecidableEq

/-- The mutable fields of a `RobustService` object.  `start_cmd` / `stop_cmd`
record whether the corresponding command is configured (truthy); `server`
records whether `self.server` holds a process handle (is not None). -/
structure RobustServiceState where
  start_cmd : Bool
  stop_cmd : Bool
  server : Bool
  is_active : Bool
deriving DecidableEq

/-- `RobustService.TIMEOUT` (seconds). -/
def TIMEOUT : Nat := 15

/-- `RobustService.start`: spawn the process if a start command is configured. -/
def start (st : RobustServiceState) : RobustServiceState :=
  if st.start_cmd then { st with server := true } else st

/-- `RobustService.stop`.  `stopExit` is the exit code the configured stop
command would return; `subprocess.run(..., check=True)` raises
`CalledProcessError` on a non-zero exit, in which case the trailing
`self.is_active = False` assignment is never executed.  `self.server.kill()`
neither clears `self.server` nor can fail in this model. -/
def stop (st : RobustServiceState) (stopExit : Int) :
    Option StopError × RobustServiceState :=
  if st.stop_cmd then
    if stopExit ≠ 0 then (some (StopError.calledProcessError stopExit), st)
    else (none, { st with is_active := false })
  else (none, { st with is_active := false })

/-- The `while True` polling loop of `ensure_alive`.  `j` is the index of the
next probe to issue and `fuel = TIMEOUT - elapsed`: the loop body sleeps one
second (continuing) exactly when `elapsed < TIMEOUT`, and otherwise raises
`PermanentlyFailedException`.  Returns the loop's outcome together with the
index right after the last probe issued. -/
def pollLoop (probes : Nat → ProbeOutcome) : Nat → Nat → Except EnsureError Unit × Nat
  | fuel, j =>
    if probes j = ProbeOutcome.alive then (Except.ok (), j + 1)
    else
      match fuel with
      | 0 => (Except.error EnsureError.permanentlyFailed, j + 1)
      | f + 1 => pollLoop probes f (j + 1)

/-- The tail of `ensure_alive` after the initial active-check: start the
process if no handle exists, then poll.  `j0` is the index of the first probe
the loop will issue.  Returns (result, final state, number of probes issued
in total, counting from probe index 0). -/
def ensure_alive_rest (st : RobustServiceState) (probes : Nat → ProbeOutcome)
    (j0 : Nat) : Except EnsureError (Option Bool) × RobustServiceState × Nat :=
  let st1 := if st.server then st else start st
  match pollLoop probes TIMEOUT j0 with
  | (Except.ok _, n) => (Except.ok none, { st1 with is_active := true }, n)
  | (Except.error e, n) => (Except.error e, st1, n)

/-- `RobustService.ensure_alive`.  If `is_active`, probe once and return the
probe's boolean result unless it raised `ShouldRetryException` (which is
suppressed, falling through to recovery).  The returned `Option Bool` is the
Python return value (`None` on the normal path).  The final `Nat` is the
number of probes issued. -/
def ensure_alive (st : RobustServiceState) (probes : Nat → ProbeOutcome) :
    Except EnsureError (Option Bool) × RobustServiceState × Nat :=
  if st.is_active then
    match probes 0 with
    | ProbeOutcome.alive => (Except.ok (some true), st, 1)
    | ProbeOutcome.dead => (Except.ok (some false), st, 1)
    | ProbeOutcome.shouldRetry => ensure_alive_rest st probes 1
  else
    ensure_alive_rest st probes 0

/-- Whether an `Except` result is a normal return. -/
def exceptOk {ε α : Type} : Except ε α → Bool
  | Except.ok _ => true
  | Except.error _ => false

/-- An HTTP response as seen through `requests`: status code, `r.text` and
`r.content`. -/
structure HttpResponse where
  status : Nat
  text : String
  content : List Nat
deriving DecidableEq

/-- Outcome of `requests.get` on the ping URL: the connection could not be
established (`requests.exceptions.ConnectionError`), or a response arrived. -/
inductive PingOutcome where
  | connError
  | response (r : HttpResponse)
deriving DecidableEq

/-- `requests.Response.ok`: true exactly when `status_code < 400`. -/
def response_ok (r : HttpResponse) : Bool := r.status < 400

/-- `RobustService.is_alive`: `GET {endpoint}/ping`, returning `r.ok`;
a `ConnectionError` is re-raised as `ShouldRetryException`. -/
def is_alive (net : String → PingOutcome) (endpoint : String) :
    Except EnsureError Bool :=
  match net (endpoint ++ "/ping") with
  | PingOutcome.connError => Except.error EnsureError.shouldRetry
  | PingOutcome.response r => Except.ok (response_ok r)

/-- The `is_alive` outcome as a probe outcome, tying the probe alphabet used
by `ensure_alive` to the probe implementation. -/
def probeOutcomeOf (net : String → PingOutcome) (endpoint : String) : ProbeOutcome :=
  match is_alive net endpoint with
  | Except.ok true => ProbeOutcome.alive
  | Except.ok false => ProbeOutcome.dead
  | Except.error _ => ProbeOutcome.shouldRetry

/-- A Python property dict with string keys and values, as an ordered
association list with unique keys. -/
abbrev PropMap : Type := List (String × String)

/-- Dict lookup (`d[k]` / `d.get(k)`). -/
def pget : PropMap → String → Option String
  | [], _ => none
  | (k', v) :: rest, k => if k' = k then some v else pget rest k

/-- `d.get(k, default)`. -/
def pgetD (d : PropMap) (k dflt : String) : String := (pget d k).getD dflt

/-- Dict assignment `d[k] = v`: replace the value of an existing key in
place, otherwise append the new key at the end. -/
def pset : PropMap → String → String → PropMap
  | [], k, v => [(k, v)]
  | (k', v') :: rest, k, v =>
    if k' = k then (k, v) :: rest else (k', v') :: pset rest k v

/-- `d.update(kvs)`: assign every pair of `kvs` in order. -/
def pUpdate (d : PropMap) (kvs : List (String × String)) : PropMap :=
  kvs.foldl (fun acc kv => pset acc kv.1 kv.2) d

/-- The exact body the CoreNLP server sends when a request times out. -/
def timeoutMessage : String :=
  "CoreNLP request timed out. Your document may be too long."

/-- The POST issued by `_request`: URL, the `properties` query parameter
(carried as the map itself), body bytes, and the content-type header. -/
structure PostRequest where
  url : String
  properties : PropMap
  data : List Nat
  contentType : String

/-- Outcome of `requests.post`. -/
inductive PostOutcome where
  | connError
  | response (r : HttpResponse)

/-- Errors `_request` can raise: a propagated `ensure_alive` failure, a
propagated `ConnectionError` from the POST itself, the `ValueError` for an
unrecognized input format, `TimeoutException`, or `AnnotationException`. -/
inductive RequestError where
  | ensureFailed (e : EnsureError)
  | connectionError
  | invalidInputFormat (msg : String)
  | timeout (msg : String)
  | annotErr (msg : String)

/-- `Response.raise_for_status` raises `requests.HTTPError` exactly for 4xx
and 5xx status codes. -/
def response_raises (r : HttpResponse) : Bool := 400 ≤ r.status && r.status < 600

/-- The POST-and-classify tail of `_request`: issue the POST, call
`raise_for_status`, and map an `HTTPError` to `TimeoutException` when the body
is the server's timed-out message and to `AnnotationException` otherwise.
The last component records the POST that was issued, if any. -/
def postAndClassify (net : PostRequest → PostOutcome) (endpoint : String)
    (buf : List Nat) (properties : PropMap) (ctype : String)
    (st1 : RobustServiceState) :
    Except RequestError HttpResponse × RobustServiceState × Option PostRequest :=
  let req : PostRequest := ⟨endpoint, properties, buf, ctype⟩
  match net req with
  | PostOutcome.connError => (Except.error RequestError.connectionError, st1, some req)
  | PostOutcome.response r =>
    if response_raises r then
      if r.text = timeoutMessage then
        (Except.error (RequestError.timeout r.text), st1, some req)
      else
        (Except.error (RequestError.annotErr r.text), st1, some req)
    else (Except.ok r, st1, some req)

/-- `CoreNLPClient._request`: ensure the service is alive, pick the
content type from `properties.get("inputFormat", "text")` (raising
`ValueError` on any value that is neither "text" nor "serialized"), then POST
and
classify the outcome.  The last component records the POST issued, if any. -/
def _request (st : RobustServiceState) (probes : Nat → ProbeOutcome)
    (net : PostRequest → PostOutcome) (endpoint : String)
    (buf : List Nat) (properties : PropMap) :
    Except RequestError HttpResponse × RobustServiceState × Option PostRequest :=
  match ensure_alive st probes with
  | (Except.error e, st1, _) => (Except.error (RequestError.ensureFailed e), st1, none)
  | (Except.ok _, st1, _) =>
    let input_format := pgetD properties "inputFormat" "text"
    if input_format = "text" then
      postAndClassify net endpoint buf properties "text/plain; charset=utf-8" st1
    else if input_format = "serialized" then
      postAndClassify net endpoint buf properties "application/x-protobuf" st1
    else
      (Except.error (RequestError.invalidInputFormat
         ("Unrecognized inputFormat " ++ input_format)), st1, none)

/-- `text.encode('utf-8')`. -/
def encode_utf8 (s : String) : List Nat :=
  s.toUTF8.toList.map (fun b => b.toNat)

/-- The fields of a `CoreNLPClient` relevant to its operations. -/
structure CoreNLPClientState where
  service : RobustServiceState
  endpoint : String
  default_annotators : List String
  default_properties : PropMap

/-- Python's `annotators or self.default_annotators`: `None` and the empty
list are both falsy. -/
def py_or_list (a : Option (List String)) (d : List String) : List String :=
  match a with
  | some l => if l.isEmpty then d else l
  | none => d

/-- `CoreNLPClient.annotate`.  When `properties` is omitted, the client's own
`default_properties` dict is taken and mutated in place via `update`; the
mutated dict is then used for the request.  `parse` stands for
`parseFromDelimitedString` into a fresh `Document`. -/
def annotate {Doc : Type} (parse : List Nat → Doc)
    (cl : CoreNLPClientState) (probes : Nat → ProbeOutcome)
    (net : PostRequest → PostOutcome) (text : String)
    (annotators : Option (List String)) (properties : Option PropMap) :
    Except RequestError Doc × CoreNLPClientState :=
  let pc :=
    match properties with
    | none =>
      let p := pUpdate cl.default_properties
        [("annotators", String.intercalate "," (py_or_list annotators cl.default_annotators)),
         ("inputFormat", "text"),
         ("outputFormat", "serialized"),
         ("serializer", "edu.stanford.nlp.pipeline.ProtobufAnnotationSerializer")]
      (p, { cl with default_properties := p })
    | some p => (p, cl)
  match _request pc.2.service probes net pc.2.endpoint (encode_utf8 text) pc.1 with
  | (Except.ok r, st1, _) =>
    (Except.ok (parse r.content), { pc.2 with service := st1 })
  | (Except.error e, st1, _) => (Except.error e, { pc.2 with service := st1 })

/-- `CoreNLPClient.update`: like `annotate` but the input document is first
serialized (`write` stands for `writeToDelimitedString`) and the default
`inputFormat` is "serialized". -/
def update {Doc : Type} (parse : List Nat → Doc) (write : Doc → List Nat)
    (cl : CoreNLPClientState) (probes : Nat → ProbeOutcome)
    (net : PostRequest → PostOutcome) (doc : Doc)
    (annotators : Option (List String)) (properties : Option PropMap) :
    Except RequestError Doc × CoreNLPClientState :=
  let pc :=
    match properties with
    | none =>
      let p := pUpdate cl.default_properties
        [("annotators", String.intercalate "," (py_or_list annotators cl.default_annotators)),
         ("inputFormat", "serialized"),
         ("outputFormat", "serialized"),
         ("serializer", "edu.stanford.nlp.pipeline.ProtobufAnnotationSerializer")]
      (p, { cl with default_properties := p })
    | some p => (p, cl)
  match _request pc.2.service probes net pc.2.endpoint (write doc) pc.1 with
  | (Except.ok r, st1, _) =>
    (Except.ok (parse r.content), { pc.2 with service := st1 })
  | (Except.error e, st1, _) => (Except.error e, { pc.2 with service := st1 })

/-- A parsed JSON value, as produced by `json.loads`. -/
inductive JVal where
  | jnull
  | jbool (b : Bool)
  | jnum (n : Int)
  | jstr (s : String)
  | jarr (elems : List JVal)
  | jobj (fields : List (String × JVal))

/-- JSON object lookup (`obj[k]`). -/
def jlookup : List (String × JVal) → String → Option JVal
  | [], _ => none
  | (k', v) :: rest, k => if k' = k then some v else jlookup rest k

/-- `dict(fields, **{k: v})`: a copy of the dict with key `k` set to `v`
(replaced in place if present, appended otherwise). -/
def dictWith : List (String × JVal) → String → JVal → List (String × JVal)
  | [], k, v => [(k, v)]
  | (k', v') :: rest, k, v =>
    if k' = k then (k, v) :: rest else (k', v') :: dictWith rest k v

/-- `dict(v, **dict([('sent_index', i)]))`: requires `v` to be a dict
(a `TypeError` — `none` — otherwise). -/
def indexedWord (i : Nat) (v : JVal) : Option JVal :=
  match v with
  | JVal.jobj fs => some (JVal.jobj (dictWith fs "sent_index" (JVal.jnum (i : Int))))
  | _ => none

/-- The inner `for k, v in s.items() if ...` of the comprehension, for the
sentence at index `i`: keep the entries whose key passes `keep`, each turned
into an indexed word.  A non-dict sentence raises (`none`). -/
def sentenceEntries (keep : Nat → String → Bool) (i : Nat) (s : JVal) :
    Option (List JVal) :=
  match s with
  | JVal.jobj fs => (fs.filter (fun kv => keep i kv.1)).mapM (fun kv => indexedWord i kv.2)
  | _ => none

/-- The outer `for i, s in enumerate(sentences)` of the comprehension. -/
def flattenSentences (keep : Nat → String → Bool) (sents : List JVal) :
    Option (List JVal) :=
  (sents.enum.mapM (fun p => sentenceEntries keep p.1 p.2)).map List.flatten

/-- Python truthiness of the `sent_index` argument: `None` and `0` are falsy. -/
def pyTruthyNat : Option Nat → Bool
  | none => false
  | some n => n != 0

/-- `CoreNLPClient.semgrex_matches_to_indexed_words`: project the word-level
entries of `matches['sentences']` (skipping the `length` key), tagging each
with its sentence index; the `i == sent_index` filter is applied only when
`if sent_index:` is truthy. -/
def semgrex_matches_to_indexed_words (matchesJ : JVal) (sent_index : Option Nat) :
    Option (List JVal) :=
  match matchesJ with
  | JVal.jobj fs =>
    match jlookup fs "sentences" with
    | some (JVal.jarr sents) =>
      if pyTruthyNat sent_index then
        flattenSentences (fun i k => k != "length" && some i == sent_index) sents
      else
        flattenSentences (fun _ k => k != "length") sents
    | _ => none
  | _ => none

/-- The GET issued by `CoreNLPClient.__regex`: URL, the `pattern` / `filter` /
`unique` query parameters, and the request body bytes. -/
structure RegexRequest where
  url : String
  pattern : String
  filter : Bool
  unique : Bool
  data : List Nat

/-- `CoreNLPClient.__regex`: GET `endpoint + path` with the given query
parameters and the UTF-8 encoded text as body; the response text is parsed as
JSON, falling back to the raw text when parsing fails.  Also returns the GET
request that was issued.  `jsonLoads` stands for `json.loads`. -/
def __regex (net : RegexRequest → HttpResponse) (jsonLoads : String → Option JVal)
    (endpoint path text pattern : String) (filter : Bool) (unique : Bool) :
    RegexRequest × (JVal ⊕ String) :=
  let req : RegexRequest := ⟨endpoint ++ path, pattern, filter, unique, encode_utf8 text⟩
  let r := net req
  match jsonLoads r.text with
  | some j => (req, Sum.inl j)
  | none => (req, Sum.inr r.text)

/-- `CoreNLPClient.tokensregex`: delegates to `__regex` with path
`'/semgrex'` and `unique=False`; when `flatten` is set, the parsed matches are
run through `semgrex_matches_to_indexed_words` (which would raise on a
non-JSON raw-string result: `none`). -/
def tokensregex (net : RegexRequest → HttpResponse) (jsonLoads : String → Option JVal)
    (endpoint text pattern : String) (filter : Bool) (flatten : Bool)
    (sent_index : Option Nat) :
    RegexRequest × Option ((JVal ⊕ String) ⊕ List JVal) :=
  let rm := __regex net jsonLoads endpoint "/semgrex" text pattern filter false
  if flatten = false then (rm.1, some (Sum.inl rm.2))
  else
    match rm.2 with
    | Sum.inl j => (rm.1, (semgrex_matches_to_indexed_words j sent_index).map Sum.inr)
    | Sum.inr _ => (rm.1, none)

/-- `CoreNLPClient.semgrex`: like `tokensregex` but with the caller-supplied
`unique` flag. -/
def semgrex (net : RegexRequest → HttpResponse) (jsonLoads : String → Option JVal)
    (endpoint text pattern : String) (filter : Bool) (unique : Bool)
    (flatten : Bool) (sent_index : Option Nat) :
    RegexRequest × Option ((JVal ⊕ String) ⊕ List JVal) :=
  let rm := __regex net jsonLoads endpoint "/semgrex" text pattern filter unique
  if flatten = false then (rm.1, some (Sum.inl rm.2))
  else
    match rm.2 with
    | Sum.inl j => (rm.1, (semgrex_matches_to_indexed_words j sent_index).map Sum.inr)
    | Sum.inr _ => (rm.1, none)

/-- `CoreNLPClient.tregrex`: delegates to `__regex` with path `'/tregex'`. -/
def tregrex (net : RegexRequest → HttpResponse) (jsonLoads : String → Option JVal)
    (endpoint text pattern : String) (filter : Bool) :
    RegexRequest × (JVal ⊕ String) :=
  __regex net jsonLoads endpoint "/tregex" text pattern filter false

/-! ### Helper lemmas about the polling loop -/

theorem pollLoop_hit (probes : Nat → ProbeOutcome) (fuel j : Nat)
    (h : probes j = ProbeOutcome.alive) :
    pollLoop probes fuel j = (Except.ok (), j + 1) := by
  cases fuel <;> simp [pollLoop, h]

theorem pollLoop_exhaust (probes : Nat → ProbeOutcome) (j : Nat)
    (h : probes j ≠ ProbeOutcome.alive) :
    pollLoop probes 0 j = (Except.error EnsureError.permanentlyFailed, j + 1) := by
  simp [pollLoop, h]

theorem pollLoop_steps (probes : Nat → ProbeOutcome) (f j : Nat)
    (h : probes j ≠ ProbeOutcome.alive) :
    pollLoop probes (f + 1) j = pollLoop probes f (j + 1) := by
  simp [pollLoop, h]

theorem pollLoop_success (probes : Nat → ProbeOutcome) :
    ∀ fuel j k, j ≤ k → k - j ≤ fuel →
      (∀ i, j ≤ i → i < k → probes i ≠ ProbeOutcome.alive) →
      probes k = ProbeOutcome.alive →
      pollLoop probes fuel j = (Except.ok (), k + 1) := by
  intro fuel
  induction fuel with
  | zero =>
    intro j k hjk hf _ hk
    have hjk' : j = k := by omega
    subst hjk'
    exact pollLoop_hit probes 0 j hk
  | succ f ih =>
    intro j k hjk hf hmiss hk
    rcases Nat.eq_or_lt_of_le hjk with heq | hlt
    · subst heq
      exact pollLoop_hit probes (f + 1) j hk
    · have hne : probes j ≠ ProbeOutcome.alive := hmiss j (Nat.le_refl j) hlt
      rw [pollLoop_steps probes f j hne]
      exact ih (j + 1) k (by omega) (by omega)
        (fun i h1 h2 => hmiss i (by omega) h2) hk

theorem pollLoop_fail (probes : Nat → ProbeOutcome) :
    ∀ fuel j, (∀ i, j ≤ i → i ≤ j + fuel → probes i ≠ ProbeOutcome.alive) →
      pollLoop probes fuel j = (Except.error EnsureError.permanentlyFailed, j + fuel + 1) := by
  intro fuel
  induction fuel with
  | zero =>
    intro j h
    exact pollLoop_exhaust probes j (h j (Nat.le_refl j) (by omega))
  | succ f ih =>
    intro j h
    rw [pollLoop_steps probes f j (h j (Nat.le_refl j) (by omega)),
        ih (j + 1) (fun i h1 h2 => h i (by omega) (by omega))]
    have harith : j + 1 + f + 1 = j + (f + 1) + 1 := by omega
    rw [harith]

theorem pollLoop_no_retry (probes : Nat → ProbeOutcome) :
    ∀ fuel j, (pollLoop probes fuel j).1 ≠ Except.error EnsureError.shouldRetry := by
  intro fuel
  induction fuel with
  | zero =>
    intro j
    by_cases h : probes j = ProbeOutcome.alive
    · rw [pollLoop_hit probes 0 j h]; simp
    · rw [pollLoop_exhaust probes j h]; simp
  | succ f ih =>
    intro j
    by_cases h : probes j = ProbeOutcome.alive
    · rw [pollLoop_hit probes (f + 1) j h]; simp
    · rw [pollLoop_steps probes f j h]; exact ih (j + 1)

/-- Core of the timeout analysis: when the supervisor is not marked active
(or the initial check probe raised), and no probe among the first
`TIMEOUT + 2` ever returns true, `ensure_alive` raises
`PermanentlyFailedException` after issuing at most `TIMEOUT + 2` probes. -/
theorem ensure_alive_timeout_aux (st : RobustServiceState)
    (probes : Nat → ProbeOutcome)
    (hpre : st.is_active = false ∨ probes 0 = ProbeOutcome.shouldRetry)
    (h : ∀ i, i ≤ TIMEOUT + 1 → probes i ≠ ProbeOutcome.alive) :
    (ensure_alive st probes).1 = Except.error EnsureError.permanentlyFailed ∧
    (ensure_alive st probes).2.2 ≤ TIMEOUT + 2 := by
  cases hact : st.is_active with
  | false =>
    have hfail := pollLoop_fail probes TIMEOUT 0
      (fun i h1 h2 => h i (by simp [TIMEOUT] at h2 ⊢; omega))
    simp [TIMEOUT] at hfail
    simp [ensure_alive, hact, ensure_alive_rest, TIMEOUT, hfail]
  | true =>
    rcases hpre with h0 | h0
    · rw [hact] at h0; cases h0
    · have hfail := pollLoop_fail probes TIMEOUT 1
        (fun i h1 h2 => h i (by simp [TIMEOUT] at h2 ⊢; omega))
      simp [ensure_alive, hact, h0, ensure_alive_rest, hfail]
      simp [TIMEOUT]

/-! ### Helper lemmas about property dicts -/

theorem pget_pset_self (k v : String) : ∀ d : PropMap, pget (pset d k v) k = some v := by
  intro d
  induction d with
  | nil => simp [pset, pget]
  | cons kv rest ih =>
    by_cases h : kv.1 = k
    · simp [pset, h, pget]
    · simp [pset, h, pget, ih]

theorem pget_pset_ne (k' k v : String) (h : k' ≠ k) :
    ∀ d : PropMap, pget (pset d k' v) k = pget d k := by
  intro d
  induction d with
  | nil => simp [pset, pget, h]
  | cons kv rest ih =>
    by_cases h2 : kv.1 = k'
    · simp [pset, h2, pget, h]
    · simp [pset, h2, pget, ih]

/-! ### Concrete fixtures used by witnesses and counterexamples -/

/-- A freshly constructed supervisor with no configured commands. -/
def freshService : RobustServiceState :=
  { start_cmd := false, stop_cmd := false, server := false, is_active := false }

/-- A supervisor that is marked ACTIVE and owns a process handle. -/
def activeService : RobustServiceState :=
  { start_cmd := false, stop_cmd := false, server := true, is_active := true }

/-- Probe sequence answering a definite False forever. -/
def alwaysDead : Nat → ProbeOutcome := fun _ => ProbeOutcome.dead

/-- Probe sequence answering True immediately. -/
def alwaysAlive : Nat → ProbeOutcome := fun _ => ProbeOutcome.alive

/-- Probe sequence failing at seconds 0 and 1 and succeeding at second 2. -/
def aliveAtTwo : Nat → ProbeOutcome :=
  fun j => if j = 2 then ProbeOutcome.alive else ProbeOutcome.dead

/-! ### Claim theorems -/

/-- C1: for every supervisor state and probe sequence in which `is_alive`
returns false or raises ShouldRetry at every second strictly before the
15-second timeout and then returns true, `ensure_alive` returns normally and
the supervisor's liveness flag is ACTIVE afterwards. -/
theorem ensure_alive_recovers (st : RobustServiceState) (probes : Nat → ProbeOutcome)
    (k : Nat) (h1 : ∀ j, j < k → probes j ≠ ProbeOutcome.alive)
    (h2 : probes k = ProbeOutcome.alive) (h3 : k < TIMEOUT) :
    exceptOk (ensure_alive st probes).1 = true ∧
    (ensure_alive st probes).2.1.is_active = true := by
  have h3' : k < 15 := by simpa [TIMEOUT] using h3
  cases hact : st.is_active with
  | true =>
    cases hp : probes 0 with
    | alive => simp [ensure_alive, hact, hp, exceptOk]
    | dead => simp [ensure_alive, hact, hp, exceptOk]
    | shouldRetry =>
      have hk1 : 1 ≤ k := by
        rcases Nat.eq_zero_or_pos k with h0 | h0
        · rw [h0] at h2; rw [h2] at hp; cases hp
        · exact h0
      have hps := pollLoop_success probes TIMEOUT 1 k hk1
        (by simp [TIMEOUT]; omega) (fun i _ hik => h1 i hik) h2
      simp [ensure_alive, hact, hp, ensure_alive_rest, hps, exceptOk]
  | false =>
    have hps := pollLoop_success probes TIMEOUT 0 k (Nat.zero_le k)
      (by simp [TIMEOUT]; omega) (fun i _ hik => h1 i hik) h2
    simp [ensure_alive, hact, ensure_alive_rest, hps, exceptOk]

/-- C1 witness: from a fresh supervisor, probes failing at seconds 0 and 1
and succeeding at second 2 give a normal return with the ACTIVE flag set. -/
theorem ensure_alive_recovers_witness :
    exceptOk (ensure_alive freshService aliveAtTwo).1 = true ∧
    (ensure_alive freshService aliveAtTwo).2.1.is_active = true :=
  ensure_alive_recovers freshService aliveAtTwo 2 (by decide) (by decide) (by decide)

/-- C2 (amended): when the supervisor is not already marked ACTIVE — or its
initial check probe raises ShouldRetry — and no probe within the timeout
window ever returns true, `ensure_alive` fails with PermanentlyFailed after
issuing at most TIMEOUT + 2 probes, and its outcome is the same under every
probe sequence that agrees on those probes: no probe issued after the failure
can matter. -/
theorem ensure_alive_times_out (st : RobustServiceState) (probes : Nat → ProbeOutcome)
    (hpre : st.is_active = false ∨ probes 0 = ProbeOutcome.shouldRetry)
    (h : ∀ i, i ≤ TIMEOUT + 1 → probes i ≠ ProbeOutcome.alive) :
    (ensure_alive st probes).1 = Except.error EnsureError.permanentlyFailed ∧
    (ensure_alive st probes).2.2 ≤ TIMEOUT + 2 ∧
    (∀ probes' : Nat → ProbeOutcome,
      (∀ i, i ≤ TIMEOUT + 1 → probes' i = probes i) →
      (ensure_alive st probes').1 = Except.error EnsureError.permanentlyFailed) := by
  refine ⟨(ensure_alive_timeout_aux st probes hpre h).1,
          (ensure_alive_timeout_aux st probes hpre h).2, ?_⟩
  intro probes' hagree
  have hpre' : st.is_active = false ∨ probes' 0 = ProbeOutcome.shouldRetry := by
    rcases hpre with h0 | h0
    · exact Or.inl h0
    · exact Or.inr (by rw [hagree 0 (Nat.zero_le _)]; exact h0)
  have h' : ∀ i, i ≤ TIMEOUT + 1 → probes' i ≠ ProbeOutcome.alive := by
    intro i hi
    rw [hagree i hi]
    exact h i hi
  exact (ensure_alive_timeout_aux st probes' hpre' h').1

/-- C2 counterexample: with the supervisor marked ACTIVE and every probe
returning a definite False — so `is_alive` never returns true within the
timeout window — `ensure_alive` returns normally (propagating the False)
instead of failing with PermanentlyFailed. -/
theorem ensure_alive_active_dead_returns :
    (ensure_alive activeService alwaysDead).1 = Except.ok (some false) ∧
    activeService.is_active = true :=
  ⟨rfl, rfl⟩

/-- C2 witness: a fresh supervisor with probes that always answer False
times out with PermanentlyFailed. -/
theorem ensure_alive_times_out_witness :
    (ensure_alive freshService alwaysDead).1 =
      Except.error EnsureError.permanentlyFailed :=
  (ensure_alive_times_out freshService alwaysDead (Or.inl rfl) (by decide)).1

/-- C6: for every supervisor state and probe outcome sequence, `ensure_alive`
never raises ShouldRetry to its caller: every ShouldRetry raised by
`is_alive` is absorbed inside `ensure_alive`. -/
theorem ensure_alive_absorbs_should_retry (st : RobustServiceState)
    (probes : Nat → ProbeOutcome) :
    (ensure_alive st probes).1 ≠ Except.error EnsureError.shouldRetry := by
  have hrest : ∀ j0, (ensure_alive_rest st probes j0).1 ≠
      Except.error EnsureError.shouldRetry := by
    intro j0
    have hnr := pollLoop_no_retry probes TIMEOUT j0
    rcases hpl : pollLoop probes TIMEOUT j0 with ⟨res, n⟩
    rw [hpl] at hnr
    cases res with
    | ok a => simp [ensure_alive_rest, hpl]
    | error e =>
      cases e with
      | shouldRetry => simp at hnr
      | permanentlyFailed => simp [ensure_alive_rest, hpl]
  cases hact : st.is_active with
  | true =>
    cases hp : probes 0 with
    | alive => simp [ensure_alive, hact, hp]
    | dead => simp [ensure_alive, hact, hp]
    | shouldRetry => simpa [ensure_alive, hact, hp] using hrest 1
  | false => simpa [ensure_alive, hact] using hrest 0

/-- C6 witness: at a concrete state and probe sequence, the result of
`ensure_alive` is not a ShouldRetry error. -/
theorem ensure_alive_absorbs_should_retry_witness :
    (ensure_alive freshService alwaysAlive).1 ≠
      Except.error EnsureError.shouldRetry :=
  ensure_alive_absorbs_should_retry freshService alwaysAlive

/-- A supervisor with a configured stop command, marked ACTIVE. -/
def stopCmdService : RobustServiceState :=
  { start_cmd := false, stop_cmd := true, server := false, is_active := true }

/-- C8 (amended): `stop` clears the ACTIVE flag whenever it returns normally
— in particular it is safe, and clears ACTIVE, when `start` was never called
— and it propagates a failure exactly when a configured stop command exits
non-zero, in which case the whole state (ACTIVE flag included) is left
unchanged. -/
theorem stop_spec (st : RobustServiceState) (ex : Int) :
    ((stop st ex).1.isSome ↔ st.stop_cmd = true ∧ ex ≠ 0) ∧
    ((stop st ex).1 = none → (stop st ex).2.is_active = false) ∧
    ((stop st ex).1.isSome → (stop st ex).2 = st) := by
  by_cases hc : st.stop_cmd = true
  · by_cases he : ex = 0
    · subst he; simp [stop, hc]
    · simp [stop, hc, he]
  · simp [stop, hc]

/-- C8 counterexample: when the configured stop command exits non-zero, the
failure propagates but the ACTIVE flag is NOT cleared, so `stop` does not
always clear the ACTIVE liveness state. -/
theorem stop_failure_keeps_active :
    (stop stopCmdService 1).1 = some (StopError.calledProcessError 1) ∧
    (stop stopCmdService 1).2.is_active = true := by
  constructor <;> rfl

/-- C8 witness: at a concrete supervisor with no stop command, `stop` returns
normally and the ACTIVE flag is cleared afterwards. -/
theorem stop_spec_witness : (stop activeService 0).2.is_active = false :=
  (stop_spec activeService 0).2.1 (by decide)

/-- Ping network that always answers with a 301 redirect response. -/
def net301 : String → PingOutcome := fun _ => PingOutcome.response ⟨301, "", []⟩

/-- Ping network where the connection is always refused. -/
def netRefused : String → PingOutcome := fun _ => PingOutcome.connError

/-- C5 counterexample: a ping response with status 301 is not in the 2xx
range, yet `is_alive` returns true, because requests' `ok` predicate accepts
every status below 400. -/
theorem is_alive_301_counterexample :
    is_alive net301 "http://localhost:9000" = Except.ok true ∧
    ¬(200 ≤ 301 ∧ 301 < 300) := by
  refine ⟨rfl, by omega⟩

/-- C5 (amended): `is_alive` returns true iff the GET on `{endpoint}/ping`
yields a response whose status is strictly below 400 (requests' `ok`
predicate: 2xx or 3xx), and it raises ShouldRetry exactly when the connection
cannot be established. -/
theorem is_alive_spec (net : String → PingOutcome) (endpoint : String) :
    (is_alive net endpoint = Except.ok true ↔
      ∃ r, net (endpoint ++ "/ping") = PingOutcome.response r ∧ r.status < 400) ∧
    (is_alive net endpoint = Except.error EnsureError.shouldRetry ↔
      net (endpoint ++ "/ping") = PingOutcome.connError) := by
  rcases hp : net (endpoint ++ "/ping") with _ | r
  · simp [is_alive, hp]
  · simp [is_alive, hp, response_ok]

/-- C5 witness: at a concrete network where the connection is refused,
`is_alive` raises ShouldRetry. -/
theorem is_alive_spec_witness :
    is_alive netRefused "http://localhost:9000" =
      Except.error EnsureError.shouldRetry :=
  (is_alive_spec netRefused "http://localhost:9000").2.mpr rfl

/-- Whatever the network answers, `postAndClassify` has by then issued
exactly the POST built from its arguments. -/
theorem postAndClassify_issued (net : PostRequest → PostOutcome)
    (endpoint : String) (buf : List Nat) (properties : PropMap)
    (ctype : String) (st1 : RobustServiceState) :
    (postAndClassify net endpoint buf properties ctype st1).2.2 =
      some ⟨endpoint, properties, buf, ctype⟩ := by
  rcases hn : net ⟨endpoint, properties, buf, ctype⟩ with _ | r
  · simp [postAndClassify, hn]
  · by_cases h1 : response_raises r = true
    · by_cases h2 : r.text = timeoutMessage <;> simp [postAndClassify, hn, h1, h2]
    · simp [postAndClassify, hn, h1]

/-- C4: for every call to `_request` on which the readiness gate succeeds:
with `properties.inputFormat` = "text" the POST carries content-type
`text/plain; charset=utf-8`; with "serialized" it carries
`application/x-protobuf`; with any other value the call fails with the
unrecognized-inputFormat ValueError and no POST is issued. -/
theorem request_content_type (st : RobustServiceState)
    (probes : Nat → ProbeOutcome) (net : PostRequest → PostOutcome)
    (endpoint : String) (buf : List Nat) (props : PropMap)
    (h : exceptOk (ensure_alive st probes).1 = true) :
    (pgetD props "inputFormat" "text" = "text" →
      ∃ req, (_request st probes net endpoint buf props).2.2 = some req ∧
        req.contentType = "text/plain; charset=utf-8") ∧
    (pgetD props "inputFormat" "text" = "serialized" →
      ∃ req, (_request st probes net endpoint buf props).2.2 = some req ∧
        req.contentType = "application/x-protobuf") ∧
    (pgetD props "inputFormat" "text" ≠ "text" →
     pgetD props "inputFormat" "text" ≠ "serialized" →
      (_request st probes net endpoint buf props).2.2 = none ∧
      (_request st probes net endpoint buf props).1 =
        Except.error (RequestError.invalidInputFormat
          ("Unrecognized inputFormat " ++ pgetD props "inputFormat" "text"))) := by
  rcases hE : ensure_alive st probes with ⟨res, st1, n⟩
  cases res with
  | error e => rw [hE] at h; simp [exceptOk] at h
  | ok v =>
    refine ⟨?_, ?_, ?_⟩
    · intro ht
      refine ⟨⟨endpoint, props, buf, "text/plain; charset=utf-8"⟩, ?_, rfl⟩
      simp [_request, hE, ht]
      exact postAndClassify_issued net endpoint buf props _ st1
    · intro ht
      refine ⟨⟨endpoint, props, buf, "application/x-protobuf"⟩, ?_, rfl⟩
      simp [_request, hE, ht]
      exact postAndClassify_issued net endpoint buf props _ st1
    · intro ht1 ht2
      simp [_request, hE, ht1, ht2]

/-- Properties with an inputFormat that is neither "text" nor "serialized". -/
def propsBad : PropMap := [("inputFormat", "json")]

/-- Post network always answering 200 with an empty body. -/
def netPost200 : PostRequest → PostOutcome :=
  fun _ => PostOutcome.response ⟨200, "", []⟩

/-- C4 witness: with inputFormat "json" the request fails with the
unrecognized-inputFormat error and no POST is issued. -/
theorem request_content_type_witness :
    (_request freshService alwaysAlive netPost200 "http://localhost:9000" []
      propsBad).2.2 = none ∧
    (_request freshService alwaysAlive netPost200 "http://localhost:9000" []
      propsBad).1 =
      Except.error (RequestError.invalidInputFormat
        ("Unrecognized inputFormat " ++ pgetD propsBad "inputFormat" "text")) :=
  (request_content_type freshService alwaysAlive netPost200
    "http://localhost:9000" [] propsBad (by decide)).2.2 (by decide) (by decide)

/-- C3 (amended): for every request whose HTTP response has a 4xx or 5xx
status (the statuses `raise_for_status` raises on), given that the readiness
gate succeeds and the input format is recognized, `_request` fails with
Timeout when the response body is exactly the server's timed-out message and
otherwise with the annotation error carrying that body. -/
theorem request_error_classification (st : RobustServiceState)
    (probes : Nat → ProbeOutcome) (endpoint : String) (buf : List Nat)
    (props : PropMap) (r : HttpResponse)
    (h1 : exceptOk (ensure_alive st probes).1 = true)
    (h2 : pgetD props "inputFormat" "text" = "text" ∨
          pgetD props "inputFormat" "text" = "serialized")
    (h3 : 400 ≤ r.status) (h4 : r.status < 600) :
    (_request st probes (fun _ => PostOutcome.response r) endpoint buf props).1 =
      if r.text = timeoutMessage then Except.error (RequestError.timeout r.text)
      else Except.error (RequestError.annotErr r.text) := by
  rcases hE : ensure_alive st probes with ⟨res, st1, n⟩
  cases res with
  | error e => rw [hE] at h1; simp [exceptOk] at h1
  | ok v =>
    have hraise : response_raises r = true := by
      simp [response_raises]; omega
    rcases h2 with ht | ht <;>
      by_cases htm : r.text = timeoutMessage <;>
        simp [_request, hE, ht, postAndClassify, hraise, htm]

/-- A 304 Not Modified response: non-2xx, but `raise_for_status` does not
raise on it. -/
def resp304 : HttpResponse := ⟨304, "not modified", []⟩

/-- C3 counterexample: a response with the non-2xx status 304 makes
`_request` return normally — it fails with neither Timeout nor the
annotation error. -/
theorem request_304_returns_ok :
    (_request freshService alwaysAlive (fun _ => PostOutcome.response resp304)
      "http://localhost:9000" [] []).1 = Except.ok resp304 ∧
    ¬(200 ≤ 304 ∧ 304 < 300) := by
  refine ⟨rfl, by omega⟩

/-- A 500 response carrying the server's timed-out message. -/
def respTimeout : HttpResponse := ⟨500, timeoutMessage, []⟩

/-- C3 witness: a 500 response whose body is exactly the timed-out message
is classified as Timeout. -/
theorem request_error_classification_witness :
    (_request freshService alwaysAlive (fun _ => PostOutcome.response respTimeout)
      "http://localhost:9000" [] []).1 =
      (if respTimeout.text = timeoutMessage
       then Except.error (RequestError.timeout respTimeout.text)
       else Except.error (RequestError.annotErr respTimeout.text)) :=
  request_error_classification freshService alwaysAlive "http://localhost:9000"
    [] [] respTimeout (by decide) (Or.inl (by decide)) (by decide) (by decide)

/-- `pUpdate` with the four request keys is the four-fold dict assignment. -/
theorem pUpdate_four (d : PropMap) (v1 v2 v3 v4 : String) :
    pUpdate d [("annotators", v1), ("inputFormat", v2),
      ("outputFormat", v3), ("serializer", v4)] =
      pset (pset (pset (pset d "annotators" v1) "inputFormat" v2)
        "outputFormat" v3) "serializer" v4 := rfl

/-- Looking up each of the four request keys after the update gives the
just-assigned value. -/
theorem pget_pUpdate_props (d : PropMap) (v1 v2 v3 v4 : String) :
    pget (pUpdate d [("annotators", v1), ("inputFormat", v2),
      ("outputFormat", v3), ("serializer", v4)]) "annotators" = some v1 ∧
    pget (pUpdate d [("annotators", v1), ("inputFormat", v2),
      ("outputFormat", v3), ("serializer", v4)]) "inputFormat" = some v2 ∧
    pget (pUpdate d [("annotators", v1), ("inputFormat", v2),
      ("outputFormat", v3), ("serializer", v4)]) "outputFormat" = some v3 ∧
    pget (pUpdate d [("annotators", v1), ("inputFormat", v2),
      ("outputFormat", v3), ("serializer", v4)]) "serializer" = some v4 := by
  rw [pUpdate_four]
  refine ⟨?_, ?_, ?_, ?_⟩
  · rw [pget_pset_ne "serializer" "annotators" v4 (by decide),
        pget_pset_ne "outputFormat" "annotators" v3 (by decide),
        pget_pset_ne "inputFormat" "annotators" v2 (by decide),
        pget_pset_self "annotators" v1]
  · rw [pget_pset_ne "serializer" "inputFormat" v4 (by decide),
        pget_pset_ne "outputFormat" "inputFormat" v3 (by decide),
        pget_pset_self "inputFormat" v2]
  · rw [pget_pset_ne "serializer" "outputFormat" v4 (by decide),
        pget_pset_self "outputFormat" v3]
  · rw [pget_pset_self "serializer" v4]

/-- With `properties` omitted, `annotate` stores the updated dict back into
the client's `default_properties` (the Python code mutates that dict in
place), whatever the request outcome. -/
theorem annotate_defaults {Doc : Type} (parse : List Nat → Doc)
    (cl : CoreNLPClientState) (probes : Nat → ProbeOutcome)
    (net : PostRequest → PostOutcome) (text : String)
    (annotators : Option (List String)) :
    (annotate parse cl probes net text annotators none).2.default_properties =
      pUpdate cl.default_properties
        [("annotators", String.intercalate "," (py_or_list annotators cl.default_annotators)),
         ("inputFormat", "text"),
         ("outputFormat", "serialized"),
         ("serializer", "edu.stanford.nlp.pipeline.ProtobufAnnotationSerializer")] := by
  simp only [annotate]
  split <;> rfl

/-- Same for `update`, whose default inputFormat is "serialized". -/
theorem update_defaults {Doc : Type} (parse : List Nat → Doc)
    (write : Doc → List Nat) (cl : CoreNLPClientState)
    (probes : Nat → ProbeOutcome) (net : PostRequest → PostOutcome) (doc : Doc)
    (annotators : Option (List String)) :
    (update parse write cl probes net doc annotators none).2.default_properties =
      pUpdate cl.default_properties
        [("annotators", String.intercalate "," (py_or_list annotators cl.default_annotators)),
         ("inputFormat", "serialized"),
         ("outputFormat", "serialized"),
         ("serializer", "edu.stanford.nlp.pipeline.ProtobufAnnotationSerializer")] := by
  simp only [update]
  split <;> rfl

/-- C9: after any call to `annotate` or `update` with the `properties`
argument omitted, the client's stored default property mapping itself has
been mutated: it now contains the annotators, inputFormat, outputFormat and
serializer keys with that call's values ("text" as the inputFormat for
annotate, "serialized" for update), and — the state being the mapping shared
with later calls — the change is visible to every later call using those
defaults. -/
theorem annotate_update_mutate_defaults {Doc : Type} (parse : List Nat → Doc)
    (write : Doc → List Nat) (cl : CoreNLPClientState)
    (probes : Nat → ProbeOutcome) (net : PostRequest → PostOutcome)
    (text : String) (doc : Doc) (annotators : Option (List String)) :
    (pget (annotate parse cl probes net text annotators none).2.default_properties
        "annotators" =
        some (String.intercalate "," (py_or_list annotators cl.default_annotators)) ∧
     pget (annotate parse cl probes net text annotators none).2.default_properties
        "inputFormat" = some "text" ∧
     pget (annotate parse cl probes net text annotators none).2.default_properties
        "outputFormat" = some "serialized" ∧
     pget (annotate parse cl probes net text annotators none).2.default_properties
        "serializer" = some "edu.stanford.nlp.pipeline.ProtobufAnnotationSerializer") ∧
    (pget (update parse write cl probes net doc annotators none).2.default_properties
        "annotators" =
        some (String.intercalate "," (py_or_list annotators cl.default_annotators)) ∧
     pget (update parse write cl probes net doc annotators none).2.default_properties
        "inputFormat" = some "serialized" ∧
     pget (update parse write cl probes net doc annotators none).2.default_properties
        "outputFormat" = some "serialized" ∧
     pget (update parse write cl probes net doc annotators none).2.default_properties
        "serializer" = some "edu.stanford.nlp.pipeline.ProtobufAnnotationSerializer") := by
  constructor
  · rw [annotate_defaults parse cl probes net text annotators]
    exact pget_pUpdate_props cl.default_properties _ _ _ _
  · rw [update_defaults parse write cl probes net doc annotators]
    exact pget_pUpdate_props cl.default_properties _ _ _ _

/-- The worked two-sentence example from the specification:
`{"sentences": [{"length": 1, "0": {"word": "Alice"}},
{"length": 1, "0": {"word": "ran"}}]}`. -/
def exampleMatches : JVal :=
  JVal.jobj [("sentences", JVal.jarr
    [JVal.jobj [("length", JVal.jnum 1),
                ("0", JVal.jobj [("word", JVal.jstr "Alice")])],
     JVal.jobj [("length", JVal.jnum 1),
                ("0", JVal.jobj [("word", JVal.jstr "ran")])]])]

/-- C7: evaluating the flatten transform at the two-sentence example.
Without `sent_index` the documented behaviour holds: two records tagged with
sent_index 0 and 1, no `length` entries; with `sent_index = 1` the output is
restricted to sentence 1.  But with `sent_index = 0` the guard
`if sent_index:` is falsy, the filter is silently skipped, and words of BOTH
sentences are returned — the output is not restricted to the requested
sentence, contradicting the function's documented purpose and the claim. -/
theorem semgrex_flatten_sent_index_zero_bug :
    semgrex_matches_to_indexed_words exampleMatches none =
      some [JVal.jobj [("word", JVal.jstr "Alice"), ("sent_index", JVal.jnum 0)],
            JVal.jobj [("word", JVal.jstr "ran"), ("sent_index", JVal.jnum 1)]] ∧
    semgrex_matches_to_indexed_words exampleMatches (some 1) =
      some [JVal.jobj [("word", JVal.jstr "ran"), ("sent_index", JVal.jnum 1)]] ∧
    semgrex_matches_to_indexed_words exampleMatches (some 0) =
      some [JVal.jobj [("word", JVal.jstr "Alice"), ("sent_index", JVal.jnum 0)],
            JVal.jobj [("word", JVal.jstr "ran"), ("sent_index", JVal.jnum 1)]] := by
  refine ⟨rfl, rfl, rfl⟩

/-- The first component of `__regex` is always the GET request built from
its arguments. -/
theorem __regex_fst (net : RegexRequest → HttpResponse)
    (jsonLoads : String → Option JVal)
    (endpoint path text pattern : String) (filter unique : Bool) :
    (__regex net jsonLoads endpoint path text pattern filter unique).1 =
      ⟨endpoint ++ path, pattern, filter, unique, encode_utf8 text⟩ := by
  simp only [__regex]
  split <;> rfl

/-- `tokensregex` issues exactly the GET that `__regex` with path
`'/semgrex'` builds, in every flatten mode. -/
theorem tokensregex_fst (net : RegexRequest → HttpResponse)
    (jsonLoads : String → Option JVal) (endpoint text pattern : String)
    (filter flatten : Bool) (sent_index : Option Nat) :
    (tokensregex net jsonLoads endpoint text pattern filter flatten sent_index).1 =
      (__regex net jsonLoads endpoint "/semgrex" text pattern filter false).1 := by
  simp only [tokensregex]
  split
  · rfl
  · split <;> rfl

/-- Same for `semgrex`. -/
theorem semgrex_fst (net : RegexRequest → HttpResponse)
    (jsonLoads : String → Option JVal) (endpoint text pattern : String)
    (filter unique flatten : Bool) (sent_index : Option Nat) :
    (semgrex net jsonLoads endpoint text pattern filter unique flatten sent_index).1 =
      (__regex net jsonLoads endpoint "/semgrex" text pattern filter unique).1 := by
  simp only [semgrex]
  split
  · rfl
  · split <;> rfl

/-- C10: `tokensregex` issues its HTTP GET to the `/semgrex` path of the
endpoint — the same path `semgrex` uses — and not to a `/tokensregex` path,
while `tregrex` issues its GET to the `/tregex` path. -/
theorem pattern_query_paths (net : RegexRequest → HttpResponse)
    (jsonLoads : String → Option JVal) (endpoint text pattern : String)
    (filter unique flatten : Bool) (sent_index : Option Nat) :
    (tokensregex net jsonLoads endpoint text pattern filter flatten sent_index).1.url =
      endpoint ++ "/semgrex" ∧
    (semgrex net jsonLoads endpoint text pattern filter unique flatten sent_index).1.url =
      endpoint ++ "/semgrex" ∧
    (tregrex net jsonLoads endpoint text pattern filter).1.url =
      endpoint ++ "/tregex" ∧
    (tokensregex net jsonLoads endpoint text pattern filter flatten sent_index).1.url ≠
      endpoint ++ "/tokensregex" := by
  have h1 := tokensregex_fst net jsonLoads endpoint text pattern filter flatten sent_index
  have h2 := semgrex_fst net jsonLoads endpoint text pattern filter unique flatten sent_index
  rw [__regex_fst] at h1 h2
  refine ⟨by rw [h1], by rw [h2], ?_, ?_⟩
  · simp only [tregrex]
    rw [__regex_fst]
  · rw [h1]
    intro hc
    have hl := congrArg String.length hc
    rw [String.length_append, String.length_append] at hl
    have h8 : ("/semgrex" : String).length = 8 := rfl
    have h12 : ("/tokensregex" : String).length = 12 := rfl
    rw [h8, h12] at hl
    omega

/-- Regex network stub always answering 200 with an empty body. -/
def netRegexStub : RegexRequest → HttpResponse := fun _ => ⟨200, "", []⟩

/-- JSON parsing stub that never parses. -/
def jsonLoadsStub : String → Option JVal := fun _ => none

/-- C10 witness: at concrete arguments, the URL `tokensregex` requests is
not the `/tokensregex` path. -/
theorem pattern_query_paths_witness :
    (tokensregex netRegexStub jsonLoadsStub "http://localhost:9000" "" ""
      false false none).1.url ≠ "http://localhost:9000" ++ "/tokensregex" :=
  (pattern_query_paths netRegexStub jsonLoadsStub "http://localhost:9000" "" ""
    false false false none).2.2.2
